import Mathlib

/-!
Shallow embedding of `tokio-postgres/src/connect_socket.rs` (zenithdb/rust-postgres).

The source file has three items:
  * `connect_socket_addr` — direct-address dial,
  * `connect_socket`      — resolve-then-dial with a last-error accumulator,
  * `connect_with_timeout` — races a connect future against an optional deadline.

External effects (DNS lookup via `net::lookup_host`, `TcpStream::connect`,
`UnixStream::connect`, the `time::timeout` race, `set_nodelay`,
`set_tcp_keepalive`) are modelled by an environment `Env` of outcome oracles:
one dial consults the environment at exactly the points the Rust code awaits or
calls into the OS, and the functions below mirror the source's control flow on
those outcomes.  An attempts trace records, in order, the addresses for which a
`TcpStream::connect` attempt was initiated, so that "candidate never attempted"
is observable.  The `unreachable!()` arm of `connect_socket_addr` is a distinct
`DialOutcome.panic` outcome.
-/

set_option autoImplicit false

/-- Model of `std::time::Duration` (only its presence or absence matters here). -/
abbrev Duration := Nat

/-- Model of `std::io::ErrorKind`; the source constructs `TimedOut` and
`InvalidInput` explicitly, every other kind is abstract. -/
inductive IoErrorKind where
  | timedOut
  | invalidInput
  | other (code : Nat)
  deriving DecidableEq

/-- Model of `std::io::Error`: a kind plus its message/payload. -/
structure IoError where
  kind : IoErrorKind
  msg : String
  deriving DecidableEq

/-- The spec's error taxonomy (§7): `Resolution | Connect | Timeout | NoAddresses`. -/
inductive ErrorKind where
  | resolution
  | connect
  | timeout
  | noAddresses
  deriving DecidableEq

/-- Model of the crate's `Error` type: a kind and an optional underlying I/O cause. -/
structure Error where
  kind : ErrorKind
  cause : Option IoError
  deriving DecidableEq

/-- Modelled from the spec: `Error::connect` lives in `error.rs`, which is not
under `src/`.  The spec states that a connect/configuration failure is mapped
into the `Connect` kind carrying the native I/O cause (§4.2 "mapping the
operation's native I/O failure into `ConnectError::Connect`", §4.4 "Any failure
to apply either setting is a hard `Connect` error"), so `Error::connect e` is
the Connect-kind error with cause `e`. -/
def Error.connect (e : IoError) : Error :=
  ⟨ErrorKind.connect, some e⟩

/-- Model of `config::Host`: `Tcp(String)` or `Unix(PathBuf)`. -/
inductive Host where
  | tcp (host : String)
  | unix (path : String)
  deriving DecidableEq

/-- Model of `std::net::SocketAddr`, the concrete TCP address a resolver yields. -/
structure TcpSocketAddr where
  ip : Nat
  port : Nat
  deriving DecidableEq

/-- Model of the crate's `SocketAddr`: a concrete dialable address, either a
resolved TCP address or the (payload-free) Unix marker. -/
inductive SocketAddr where
  | tcp (addr : TcpSocketAddr)
  | unix
  deriving DecidableEq

/-- A connected `tokio::net::TcpStream`, identified by its descriptor. -/
structure TcpStream where
  fd : Nat
  deriving DecidableEq

/-- A connected `tokio::net::UnixStream`, identified by its descriptor. -/
structure UnixStream where
  fd : Nat
  deriving DecidableEq

/-- Model of the crate's `Socket` (lib.rs): an opaque connected handle,
built by `Socket::new_tcp` or `Socket::new_unix`. -/
inductive Socket where
  | tcp (stream : TcpStream)
  | unix (stream : UnixStream)
  deriving DecidableEq

/-- Modelled from the spec: `KeepaliveConfig` lives in `keepalive.rs`, not under
`src/`; §3 gives it idle/interval/retries parameters. Its fields are never
inspected by the dial logic, only passed through to `set_tcp_keepalive`. -/
structure KeepaliveConfig where
  idle : Duration
  interval : Option Duration
  retries : Option Nat
  deriving DecidableEq

/-- Outcome environment for one dial: the result each external effect would
produce if performed.  `tcpTimesOut`/`unixTimesOut` say whether the deadline
timer would fire before the connect future completes (consulted only when a
timeout is configured). -/
structure Env where
  lookupHost : String → Nat → Except IoError (List TcpSocketAddr)
  tcpConnect : TcpSocketAddr → Except IoError TcpStream
  tcpTimesOut : TcpSocketAddr → Bool
  unixConnect : String → Except IoError UnixStream
  unixTimesOut : String → Bool
  setNodelay : TcpStream → Except IoError Unit
  setKeepalive : TcpStream → KeepaliveConfig → Except IoError Unit

/-- `connect_with_timeout(connect, timeout)`: with no deadline, await the future
and map an I/O failure through `Error::connect`; with a deadline, race it
against a timer (`timerFirst` says the timer won) and on expiry return
`Error::connect(io::Error::new(TimedOut, "connection timed out"))`. -/
def connect_with_timeout {T : Type} (timeout : Option Duration) (timerFirst : Bool)
    (result : Except IoError T) : Except Error T :=
  match timeout with
  | some _ =>
    if timerFirst then
      Except.error (Error.connect ⟨IoErrorKind.timedOut, "connection timed out"⟩)
    else
      match result with
      | Except.ok socket => Except.ok socket
      | Except.error e => Except.error (Error.connect e)
  | none =>
    match result with
    | Except.ok socket => Except.ok socket
    | Except.error e => Except.error (Error.connect e)

/-- One timeout-wrapped `TcpStream::connect(addr)` attempt. -/
def attemptResult (env : Env) (timeout : Option Duration) (addr : TcpSocketAddr) :
    Except Error TcpStream :=
  connect_with_timeout timeout (env.tcpTimesOut addr) (env.tcpConnect addr)

/-- The post-connect configuration block shared verbatim by both dial entry
points: `stream.set_nodelay(true)?`, then `set_tcp_keepalive` if a
`KeepaliveConfig` is supplied, then `Ok(Socket::new_tcp(stream))`; each failure
is mapped through `Error::connect`. -/
def configure_tcp (env : Env) (stream : TcpStream)
    (keepalive_config : Option KeepaliveConfig) : Except Error Socket :=
  match env.setNodelay stream with
  | Except.error e => Except.error (Error.connect e)
  | Except.ok _ =>
    match keepalive_config with
    | none => Except.ok (Socket.tcp stream)
    | some kc =>
      match env.setKeepalive stream kc with
      | Except.error e => Except.error (Error.connect e)
      | Except.ok _ => Except.ok (Socket.tcp stream)

/-- `PathBuf::join` for the only shapes that occur here: the joined component
never starts with a separator, so join pushes a `/` unless the directory is
empty or already ends with one. -/
def pathJoin (dir child : String) : String :=
  if dir = "" then child
  else if dir.data.getLast? = some '/' then dir ++ child
  else dir ++ "/" ++ child

/-- The Unix-socket path both entry points build:
`path.join(format!(".s.PGSQL.{}", port))`. -/
def socketPath (dir : String) (port : Nat) : String :=
  pathJoin dir (".s.PGSQL." ++ Nat.repr port)

/-- The `for addr in addrs` loop of `connect_socket`, with the `last_err`
accumulator; also returns the list of addresses for which a connect attempt was
initiated, in order.  Exhaustion returns the last error, or the synthesized
`Error::connect(io::Error::new(InvalidInput, "could not resolve any addresses"))`
when no attempt was ever made. -/
def connectLoop (env : Env) (timeout : Option Duration)
    (keepalive_config : Option KeepaliveConfig) :
    List TcpSocketAddr → Option Error → Except Error Socket × List TcpSocketAddr
  | [], lastErr =>
    (Except.error (lastErr.getD
      (Error.connect ⟨IoErrorKind.invalidInput, "could not resolve any addresses"⟩)), [])
  | addr :: rest, _lastErr =>
    match attemptResult env timeout addr with
    | Except.error e =>
      let r := connectLoop env timeout keepalive_config rest (some e)
      (r.1, addr :: r.2)
    | Except.ok stream =>
      (configure_tcp env stream keepalive_config, [addr])

/-- `connect_socket(host, port, connect_timeout, keepalive_config)`:
for a `Tcp` host, `net::lookup_host` (failure mapped through `Error::connect`),
then the candidate loop; for a `Unix` host, one timeout-wrapped
`UnixStream::connect` on the joined socket path. -/
def connect_socket (env : Env) (host : Host) (port : Nat)
    (connect_timeout : Option Duration) (keepalive_config : Option KeepaliveConfig) :
    Except Error Socket :=
  match host with
  | Host.tcp h =>
    match env.lookupHost h port with
    | Except.error e => Except.error (Error.connect e)
    | Except.ok addrs => (connectLoop env connect_timeout keepalive_config addrs none).1
  | Host.unix path =>
    let p := socketPath path port
    match connect_with_timeout connect_timeout (env.unixTimesOut p) (env.unixConnect p) with
    | Except.ok socket => Except.ok (Socket.unix socket)
    | Except.error e => Except.error e

/-- The addresses `connect_socket` initiates a `TcpStream::connect` on, in
order (empty when resolution fails or the host is local). -/
def connect_socket_attempts (env : Env) (host : Host) (port : Nat)
    (connect_timeout : Option Duration) (keepalive_config : Option KeepaliveConfig) :
    List TcpSocketAddr :=
  match host with
  | Host.tcp h =>
    match env.lookupHost h port with
    | Except.error _ => []
    | Except.ok addrs => (connectLoop env connect_timeout keepalive_config addrs none).2
  | Host.unix _ => []

/-- Outcome of `connect_socket_addr`: a socket, an error, or the
`unreachable!()` panic of the mismatched `(Host::Tcp, SocketAddr::Unix)` arm. -/
inductive DialOutcome where
  | ok (s : Socket)
  | err (e : Error)
  | panic
  deriving DecidableEq

/-- Injects a non-panicking result into `DialOutcome`. -/
def DialOutcome.ofResult : Except Error Socket → DialOutcome
  | Except.ok s => DialOutcome.ok s
  | Except.error e => DialOutcome.err e

/-- `connect_socket_addr(host, port, socket, connect_timeout, keepalive_config)`:
for a `Tcp` address, one timeout-wrapped connect then the configuration block;
for the `Unix` address, `unreachable!()` when the host is `Tcp`, otherwise one
timeout-wrapped `UnixStream::connect` on the joined socket path. -/
def connect_socket_addr (env : Env) (host : Host) (port : Nat) (socket : SocketAddr)
    (connect_timeout : Option Duration) (keepalive_config : Option KeepaliveConfig) :
    DialOutcome :=
  match socket with
  | SocketAddr.tcp addr =>
    match attemptResult env connect_timeout addr with
    | Except.error e => DialOutcome.err e
    | Except.ok stream =>
      DialOutcome.ofResult (configure_tcp env stream keepalive_config)
  | SocketAddr.unix =>
    match host with
    | Host.tcp _ => DialOutcome.panic
    | Host.unix path =>
      let p := socketPath path port
      match connect_with_timeout connect_timeout (env.unixTimesOut p) (env.unixConnect p) with
      | Except.ok s => DialOutcome.ok (Socket.unix s)
      | Except.error e => DialOutcome.err e

/-- Modelled from the spec: the callers of `connect_socket_addr` (config.rs /
connect.rs, not under `src/`) pair a host only with an address of its own
transport kind — §3's invariant that "a `Local` host is never paired with a
`Tcp` resolved address and vice versa". -/
def hostMatchesAddr : Host → SocketAddr → Bool
  | Host.tcp _, SocketAddr.tcp _ => true
  | Host.unix _, SocketAddr.unix => true
  | _, _ => false

/-! Concrete scenario environments, used to instantiate the theorems below on
closed inputs. -/

/-- Candidate address A of the concrete scenarios. -/
def addrA : TcpSocketAddr := ⟨10, 5432⟩

/-- Candidate address B of the concrete scenarios. -/
def addrB : TcpSocketAddr := ⟨20, 5432⟩

/-- Candidate address C of the concrete scenarios. -/
def addrC : TcpSocketAddr := ⟨30, 5432⟩

/-- The stream produced by a successful connect in the concrete scenarios. -/
def streamB : TcpStream := ⟨7⟩

/-- Base environment: resolution yields `[addrA, addrB, addrC]`; `addrA` is
refused, `addrB` and `addrC` connect (yielding `streamB`); no timer fires;
Unix connects succeed; both socket options apply cleanly. -/
def envBase : Env where
  lookupHost := fun _ _ => Except.ok [addrA, addrB, addrC]
  tcpConnect := fun a =>
    if a = addrA then Except.error ⟨IoErrorKind.other 111, "connection refused"⟩
    else Except.ok streamB
  tcpTimesOut := fun _ => false
  unixConnect := fun _ => Except.ok ⟨9⟩
  unixTimesOut := fun _ => false
  setNodelay := fun _ => Except.ok ()
  setKeepalive := fun _ _ => Except.ok ()

/-- `envBase` with an empty resolution result. -/
def envEmpty : Env :=
  { envBase with lookupHost := fun _ _ => Except.ok [] }

/-- `envBase` with a failing name lookup. -/
def envLookupFail : Env :=
  { envBase with lookupHost := fun _ _ => Except.error ⟨IoErrorKind.other 2, "nxdomain"⟩ }

/-- `envBase` with every TCP connect failing (`addrA` refused, the rest
unreachable). -/
def envAllFail : Env :=
  { envBase with tcpConnect := fun a =>
      if a = addrA then Except.error ⟨IoErrorKind.other 111, "connection refused"⟩
      else Except.error ⟨IoErrorKind.other 101, "network unreachable"⟩ }

/-- `envBase` with `set_nodelay` failing. -/
def envNodelayFail : Env :=
  { envBase with setNodelay := fun _ => Except.error ⟨IoErrorKind.other 22, "setsockopt failed"⟩ }

/-! ### Helper lemmas -/

lemma configure_tcp_ok (env : Env) (stream : TcpStream) (ka : Option KeepaliveConfig)
    (hnod : env.setNodelay stream = Except.ok ())
    (hka : ∀ kc, ka = some kc → env.setKeepalive stream kc = Except.ok ()) :
    configure_tcp env stream ka = Except.ok (Socket.tcp stream) := by
  cases ka with
  | none => simp [configure_tcp, hnod]
  | some kc => simp [configure_tcp, hnod, hka kc rfl]

lemma connectLoop_first_success (env : Env) (t : Option Duration)
    (ka : Option KeepaliveConfig) (a : TcpSocketAddr) (after : List TcpSocketAddr)
    (stream : TcpStream) (hconn : attemptResult env t a = Except.ok stream) :
    ∀ (before : List TcpSocketAddr) (acc : Option Error),
      (∀ b ∈ before, ∃ e, attemptResult env t b = Except.error e) →
      connectLoop env t ka (before ++ a :: after) acc =
        (configure_tcp env stream ka, before ++ [a]) := by
  intro before
  induction before with
  | nil =>
    intro acc _
    simp [connectLoop, hconn]
  | cons b bs ih =>
    intro acc hfail
    obtain ⟨e, he⟩ := hfail b (List.mem_cons_self b bs)
    have hrest := ih (some e) (fun x hx => hfail x (List.mem_cons_of_mem b hx))
    simp [connectLoop, he, hrest]

lemma connectLoop_all_fail (env : Env) (t : Option Duration) (ka : Option KeepaliveConfig)
    (x : TcpSocketAddr) (e : Error) (hx : attemptResult env t x = Except.error e) :
    ∀ (init : List TcpSocketAddr) (acc : Option Error),
      (∀ b ∈ init, ∃ err, attemptResult env t b = Except.error err) →
      connectLoop env t ka (init ++ [x]) acc = (Except.error e, init ++ [x]) := by
  intro init
  induction init with
  | nil =>
    intro acc _
    simp [connectLoop, hx]
  | cons b bs ih =>
    intro acc hfail
    obtain ⟨e0, he0⟩ := hfail b (List.mem_cons_self b bs)
    have hrest := ih (some e0) (fun y hy => hfail y (List.mem_cons_of_mem b hy))
    simp [connectLoop, he0, hrest]

/-! ### Claim theorems -/

/-- C1: resolve-then-dial with a `Tcp` host tries candidates in resolver order;
when every candidate before `a` fails its connect attempt, `a`'s connect
succeeds, and configuration applies cleanly, `connect_socket` returns the TCP
socket wrapping `a`'s stream, and only `before ++ [a]` is ever attempted — the
candidates after `a` are never dialled. -/
theorem c1_first_success_wins (env : Env) (h : String) (port : Nat)
    (t : Option Duration) (ka : Option KeepaliveConfig)
    (before after : List TcpSocketAddr) (a : TcpSocketAddr) (stream : TcpStream)
    (hres : env.lookupHost h port = Except.ok (before ++ a :: after))
    (hbefore : ∀ b ∈ before, ∃ e, attemptResult env t b = Except.error e)
    (hconn : attemptResult env t a = Except.ok stream)
    (hnod : env.setNodelay stream = Except.ok ())
    (hka : ∀ kc, ka = some kc → env.setKeepalive stream kc = Except.ok ()) :
    connect_socket env (Host.tcp h) port t ka = Except.ok (Socket.tcp stream) ∧
    connect_socket_attempts env (Host.tcp h) port t ka = before ++ [a] := by
  have hloop := connectLoop_first_success env t ka a after stream hconn before none hbefore
  have hcfg := configure_tcp_ok env stream ka hnod hka
  constructor
  · simp [connect_socket, hres, hloop, hcfg]
  · simp [connect_socket_attempts, hres, hloop]

/-- C1 witness: in the concrete scenario, `addrA` is refused, `addrB` connects,
so the dial returns `addrB`'s stream and `addrC` is never attempted. -/
theorem c1_witness :
    connect_socket envBase (Host.tcp "db.example.com") 5432 none none =
      Except.ok (Socket.tcp streamB) ∧
    connect_socket_attempts envBase (Host.tcp "db.example.com") 5432 none none =
      [addrA] ++ [addrB] :=
  c1_first_success_wins envBase "db.example.com" 5432 none none [addrA] [addrC] addrB streamB
    rfl
    (fun b hb => by
      have hb' : b = addrA := by simpa using hb
      subst hb'
      exact ⟨Error.connect ⟨IoErrorKind.other 111, "connection refused"⟩, rfl⟩)
    rfl rfl
    (fun kc hkc => by cases hkc)

/-- C2: when resolution yields a non-empty candidate list and every candidate's
connect attempt fails, `connect_socket` returns the error of the last
candidate's failure. -/
theorem c2_last_error_returned (env : Env) (h : String) (port : Nat)
    (t : Option Duration) (ka : Option KeepaliveConfig)
    (addrs : List TcpSocketAddr) (e : Error)
    (hres : env.lookupHost h port = Except.ok addrs)
    (hne : addrs ≠ [])
    (hall : ∀ a ∈ addrs, ∃ err, attemptResult env t a = Except.error err)
    (hlast : attemptResult env t (addrs.getLast hne) = Except.error e) :
    connect_socket env (Host.tcp h) port t ka = Except.error e := by
  have hdecomp : addrs.dropLast ++ [addrs.getLast hne] = addrs :=
    List.dropLast_append_getLast hne
  have hloop := connectLoop_all_fail env t ka (addrs.getLast hne) e hlast addrs.dropLast none
    (fun b hb => hall b (by rw [← hdecomp]; exact List.mem_append_left _ hb))
  rw [hdecomp] at hloop
  simp [connect_socket, hres, hloop]

/-- C2 witness: with all three candidates failing (`addrA` refused, `addrB` and
`addrC` unreachable), the dial returns the last failure, `addrC`'s. -/
theorem c2_witness :
    connect_socket envAllFail (Host.tcp "db.example.com") 5432 none none =
      Except.error (Error.connect ⟨IoErrorKind.other 101, "network unreachable"⟩) :=
  c2_last_error_returned envAllFail "db.example.com" 5432 none none [addrA, addrB, addrC]
    (Error.connect ⟨IoErrorKind.other 101, "network unreachable"⟩)
    rfl
    (by simp)
    (fun a ha => by
      have ha' : a = addrA ∨ a = addrB ∨ a = addrC := by simpa using ha
      rcases ha' with h1 | h1 | h1
      · subst h1
        exact ⟨Error.connect ⟨IoErrorKind.other 111, "connection refused"⟩, rfl⟩
      · subst h1
        exact ⟨Error.connect ⟨IoErrorKind.other 101, "network unreachable"⟩, rfl⟩
      · subst h1
        exact ⟨Error.connect ⟨IoErrorKind.other 101, "network unreachable"⟩, rfl⟩)
    rfl

/-- C3 counterexample: on an empty resolved-address sequence the code returns
the error built by `Error::connect` on `InvalidInput`/"could not resolve any
addresses" — a Connect-kind error, not a distinct `NoAddresses` kind. -/
theorem c3_counterexample :
    connect_socket envEmpty (Host.tcp "db.example.com") 5432 none none =
      Except.error ⟨ErrorKind.connect,
        some ⟨IoErrorKind.invalidInput, "could not resolve any addresses"⟩⟩ ∧
    (⟨ErrorKind.connect,
        some ⟨IoErrorKind.invalidInput, "could not resolve any addresses"⟩⟩ : Error).kind ≠
      ErrorKind.noAddresses :=
  ⟨rfl, by decide⟩

/-- C3 (amended): for an empty resolved-address sequence, `connect_socket`
returns — with no candidate ever attempted and no recorded last error — the
synthesized `Error::connect` of an `InvalidInput` I/O error with message
"could not resolve any addresses" (a Connect-kind error distinguished only by
its cause, not a distinct `NoAddresses` kind). -/
theorem c3_empty_resolution (env : Env) (h : String) (port : Nat)
    (t : Option Duration) (ka : Option KeepaliveConfig)
    (hres : env.lookupHost h port = Except.ok []) :
    connect_socket env (Host.tcp h) port t ka =
      Except.error
        (Error.connect ⟨IoErrorKind.invalidInput, "could not resolve any addresses"⟩) ∧
    connect_socket_attempts env (Host.tcp h) port t ka = [] := by
  constructor
  · simp [connect_socket, hres, connectLoop]
  · simp [connect_socket_attempts, hres, connectLoop]

/-- C3 witness: the amended claim at the concrete empty-resolution environment. -/
theorem c3_witness :
    connect_socket envEmpty (Host.tcp "db.example.com") 5432 none none =
      Except.error
        (Error.connect ⟨IoErrorKind.invalidInput, "could not resolve any addresses"⟩) ∧
    connect_socket_attempts envEmpty (Host.tcp "db.example.com") 5432 none none = [] :=
  c3_empty_resolution envEmpty "db.example.com" 5432 none none rfl

/-- C4 counterexample: when the timer fires first, the result is the error built
by `Error::connect` on `TimedOut`/"connection timed out" — a Connect-kind
error, not a distinct `Timeout` kind. -/
theorem c4_counterexample :
    connect_with_timeout (some 1) true (Except.ok streamB) =
      Except.error ⟨ErrorKind.connect,
        some ⟨IoErrorKind.timedOut, "connection timed out"⟩⟩ ∧
    ErrorKind.connect ≠ ErrorKind.timeout :=
  ⟨rfl, by decide⟩

/-- C4 (amended): with a configured deadline, `connect_with_timeout` races the
attempt against a timer: if the attempt completes first its outcome is returned
(a native I/O failure mapped through `Error::connect`); if the timer fires
first the result is `Error::connect` of a `TimedOut` I/O error with message
"connection timed out" — a Connect-kind error distinguished by its cause, not a
distinct `Timeout` kind.  With no deadline the outcome is returned unchanged,
failures again mapped through `Error::connect`. -/
theorem c4_timeout_race (d : Duration) (b : Bool) (res : Except IoError TcpStream) :
    (b = true → connect_with_timeout (some d) b res =
      Except.error (Error.connect ⟨IoErrorKind.timedOut, "connection timed out"⟩)) ∧
    (∀ s, b = false → res = Except.ok s →
      connect_with_timeout (some d) b res = Except.ok s) ∧
    (∀ e, b = false → res = Except.error e →
      connect_with_timeout (some d) b res = Except.error (Error.connect e)) ∧
    (∀ s, res = Except.ok s → connect_with_timeout none b res = Except.ok s) ∧
    (∀ e, res = Except.error e →
      connect_with_timeout none b res = Except.error (Error.connect e)) := by
  refine ⟨?_, ?_, ?_, ?_, ?_⟩
  · intro hb
    subst hb
    simp [connect_with_timeout]
  · intro s hb hres
    subst hb
    subst hres
    simp [connect_with_timeout]
  · intro e hb hres
    subst hb
    subst hres
    simp [connect_with_timeout]
  · intro s hres
    subst hres
    simp [connect_with_timeout]
  · intro e hres
    subst hres
    simp [connect_with_timeout]

/-- C4 witness: the timer fires first on a one-unit deadline. -/
theorem c4_witness :
    connect_with_timeout (some 1) true (Except.ok streamB) =
      Except.error (Error.connect ⟨IoErrorKind.timedOut, "connection timed out"⟩) :=
  (c4_timeout_race 1 true (Except.ok streamB)).1 rfl

/-- C5: after a successful TCP connect, `connect_socket_addr` unconditionally
sets nodelay (its failure is a Connect error), applies keepalive exactly when a
`KeepaliveConfig` is supplied (its failure is a Connect error; absent a config
the keepalive oracle is never consulted), and returns a socket only when every
applied setting succeeded; the Local path's outcome depends only on the Unix
connect oracles, bypassing configuration entirely. -/
theorem c5_configurator_contract (env : Env) (host : Host) (port : Nat)
    (t : Option Duration) (ka : Option KeepaliveConfig) :
    (∀ a stream, attemptResult env t a = Except.ok stream →
      ((∀ e, env.setNodelay stream = Except.error e →
          connect_socket_addr env host port (SocketAddr.tcp a) t ka =
            DialOutcome.err (Error.connect e)) ∧
       (∀ kc e, ka = some kc → env.setNodelay stream = Except.ok () →
          env.setKeepalive stream kc = Except.error e →
          connect_socket_addr env host port (SocketAddr.tcp a) t ka =
            DialOutcome.err (Error.connect e)) ∧
       (∀ s, connect_socket_addr env host port (SocketAddr.tcp a) t ka = DialOutcome.ok s →
          s = Socket.tcp stream ∧ env.setNodelay stream = Except.ok () ∧
          ∀ kc, ka = some kc → env.setKeepalive stream kc = Except.ok ()) ∧
       (ka = none →
          connect_socket_addr env host port (SocketAddr.tcp a) t none =
            DialOutcome.ofResult (match env.setNodelay stream with
              | Except.ok _ => Except.ok (Socket.tcp stream)
              | Except.error e => Except.error (Error.connect e))))) ∧
    (∀ path (env' : Env), env'.unixConnect = env.unixConnect →
      env'.unixTimesOut = env.unixTimesOut →
      connect_socket_addr env' (Host.unix path) port SocketAddr.unix t ka =
        connect_socket_addr env (Host.unix path) port SocketAddr.unix t ka) := by
  constructor
  · intro a stream hconn
    refine ⟨?_, ?_, ?_, ?_⟩
    · intro e he
      simp [connect_socket_addr, hconn, configure_tcp, he, DialOutcome.ofResult]
    · intro kc e hkc hnod hkerr
      subst hkc
      simp [connect_socket_addr, hconn, configure_tcp, hnod, hkerr, DialOutcome.ofResult]
    · intro s hs
      simp only [connect_socket_addr, hconn] at hs
      rcases hnd : env.setNodelay stream with e | u
      · simp [configure_tcp, hnd, DialOutcome.ofResult] at hs
      · cases u
        cases ka with
        | none =>
          simp [configure_tcp, hnd, DialOutcome.ofResult] at hs
          exact ⟨hs.symm, rfl, fun kc hkc => by cases hkc⟩
        | some kc =>
          rcases hk : env.setKeepalive stream kc with e | u'
          · simp [configure_tcp, hnd, hk, DialOutcome.ofResult] at hs
          · cases u'
            simp [configure_tcp, hnd, hk, DialOutcome.ofResult] at hs
            exact ⟨hs.symm, rfl, fun kc' hkc' => by cases hkc'; exact hk⟩
    · intro hka0
      subst hka0
      rcases hnd : env.setNodelay stream with e | u
      · simp [connect_socket_addr, hconn, configure_tcp, hnd]
      · cases u
        simp [connect_socket_addr, hconn, configure_tcp, hnd]
  · intro path env' h1 h2
    simp only [connect_socket_addr]
    rw [h1, h2]

/-- C5 witness: a failing `set_nodelay` on an otherwise successful connect
surfaces as a Connect error from `connect_socket_addr`. -/
theorem c5_witness :
    connect_socket_addr envNodelayFail (Host.tcp "db.example.com") 5432
      (SocketAddr.tcp addrB) none none =
      DialOutcome.err (Error.connect ⟨IoErrorKind.other 22, "setsockopt failed"⟩) :=
  (((c5_configurator_contract envNodelayFail (Host.tcp "db.example.com") 5432
      none none).1 addrB streamB rfl).1)
    ⟨IoErrorKind.other 22, "setsockopt failed"⟩ rfl

/-- C6: the Unix-socket path is the configured directory joined with the
literal `.s.PGSQL.` followed by the port rendered in decimal; in particular
directory `/var/run/postgresql` with port `5432` yields
`/var/run/postgresql/.s.PGSQL.5432`, and `connect_socket`'s Local branch dials
exactly that path. -/
theorem c6_socket_path :
    socketPath "/var/run/postgresql" 5432 = "/var/run/postgresql/.s.PGSQL.5432" ∧
    (∀ (d : String) (port : Nat), d ≠ "" → d.data.getLast? ≠ some '/' →
      socketPath d port = d ++ "/" ++ (".s.PGSQL." ++ Nat.repr port)) ∧
    (∀ (env : Env) (d : String) (port : Nat) (t : Option Duration)
        (ka : Option KeepaliveConfig),
      connect_socket env (Host.unix d) port t ka =
        match connect_with_timeout t (env.unixTimesOut (socketPath d port))
            (env.unixConnect (socketPath d port)) with
        | Except.ok s => Except.ok (Socket.unix s)
        | Except.error e => Except.error e) := by
  refine ⟨rfl, ?_, ?_⟩
  · intro d port h1 h2
    simp [socketPath, pathJoin, h1, h2]
  · intro env d port t ka
    rfl

/-- C6 witness: the joined-path form at a concrete directory and port. -/
theorem c6_witness :
    socketPath "/tmp" 6000 = "/tmp" ++ "/" ++ (".s.PGSQL." ++ Nat.repr 6000) :=
  c6_socket_path.2.1 "/tmp" 6000 (by decide) (by decide)

/-- C8: under the caller contract that a host is only paired with an address of
its own transport kind, `connect_socket_addr` never reaches the mismatched-pair
branch: the `unreachable!()` panic outcome is impossible at runtime. -/
theorem c8_matched_never_panics (env : Env) (host : Host) (port : Nat)
    (sa : SocketAddr) (t : Option Duration) (ka : Option KeepaliveConfig)
    (hmatch : hostMatchesAddr host sa = true) :
    connect_socket_addr env host port sa t ka ≠ DialOutcome.panic := by
  cases host with
  | tcp h =>
    cases sa with
    | tcp a =>
      show (match attemptResult env t a with
        | Except.error e => DialOutcome.err e
        | Except.ok stream =>
          DialOutcome.ofResult (configure_tcp env stream ka)) ≠ DialOutcome.panic
      rcases hA : attemptResult env t a with e | s
      · simp [hA]
      · rcases hC : configure_tcp env s ka with e | sk <;>
          simp [hA, hC, DialOutcome.ofResult]
    | unix => simp [hostMatchesAddr] at hmatch
  | unix p =>
    cases sa with
    | tcp a => simp [hostMatchesAddr] at hmatch
    | unix =>
      show (match connect_with_timeout t (env.unixTimesOut (socketPath p port))
          (env.unixConnect (socketPath p port)) with
        | Except.ok s => DialOutcome.ok (Socket.unix s)
        | Except.error e => DialOutcome.err e) ≠ DialOutcome.panic
      rcases hU : connect_with_timeout t (env.unixTimesOut (socketPath p port))
          (env.unixConnect (socketPath p port)) with e | s <;> simp [hU]

/-- C8 witness: a matched Local pairing at a concrete environment does not
panic. -/
theorem c8_witness :
    connect_socket_addr envBase (Host.unix "/var/run/postgresql") 5432
      SocketAddr.unix none none ≠ DialOutcome.panic :=
  c8_matched_never_panics envBase (Host.unix "/var/run/postgresql") 5432
    SocketAddr.unix none none rfl

/-- C9: for a Local host, the resolve-then-dial entry point and the
direct-address entry point invoked with the Unix address are behaviourally
identical. -/
theorem c9_local_paths_agree (env : Env) (p : String) (port : Nat)
    (t : Option Duration) (ka : Option KeepaliveConfig) :
    connect_socket_addr env (Host.unix p) port SocketAddr.unix t ka =
      DialOutcome.ofResult (connect_socket env (Host.unix p) port t ka) := by
  rcases hU : connect_with_timeout t (env.unixTimesOut (socketPath p port))
      (env.unixConnect (socketPath p port)) with e | s <;>
    simp [connect_socket_addr, connect_socket, hU, DialOutcome.ofResult]

/-- C10: in the candidate loop, when every candidate before `a` fails its
connect, `a`'s connect succeeds, and post-connect configuration then fails,
`connect_socket` returns that configuration error immediately: later candidates
are never attempted and the recorded last error is discarded. -/
theorem c10_config_failure_aborts (env : Env) (h : String) (port : Nat)
    (t : Option Duration) (ka : Option KeepaliveConfig)
    (before after : List TcpSocketAddr) (a : TcpSocketAddr) (stream : TcpStream)
    (e : Error)
    (hres : env.lookupHost h port = Except.ok (before ++ a :: after))
    (hbefore : ∀ b ∈ before, ∃ err, attemptResult env t b = Except.error err)
    (hconn : attemptResult env t a = Except.ok stream)
    (hcfg : configure_tcp env stream ka = Except.error e) :
    connect_socket env (Host.tcp h) port t ka = Except.error e ∧
    connect_socket_attempts env (Host.tcp h) port t ka = before ++ [a] := by
  have hloop := connectLoop_first_success env t ka a after stream hconn before none hbefore
  constructor
  · simp [connect_socket, hres, hloop, hcfg]
  · simp [connect_socket_attempts, hres, hloop]

/-- C10 witness: `addrA` is refused, `addrB` connects but `set_nodelay` fails:
the dial returns the configuration error, `addrC` is never attempted, and
`addrA`'s recorded failure is discarded. -/
theorem c10_witness :
    connect_socket envNodelayFail (Host.tcp "db.example.com") 5432 none none =
      Except.error (Error.connect ⟨IoErrorKind.other 22, "setsockopt failed"⟩) ∧
    connect_socket_attempts envNodelayFail (Host.tcp "db.example.com") 5432 none none =
      [addrA] ++ [addrB] :=
  c10_config_failure_aborts envNodelayFail "db.example.com" 5432 none none
    [addrA] [addrC] addrB streamB
    (Error.connect ⟨IoErrorKind.other 22, "setsockopt failed"⟩)
    rfl
    (fun b hb => by
      have hb' : b = addrA := by simpa using hb
      subst hb'
      exact ⟨Error.connect ⟨IoErrorKind.other 111, "connection refused"⟩, rfl⟩)
    rfl rfl

/-- C7 counterexample: a failed name lookup yields the error built by
`Error::connect` on the lookup's I/O cause — a Connect-kind error, not a
distinct `Resolution` kind. -/
theorem c7_counterexample :
    connect_socket envLookupFail (Host.tcp "bad.invalid") 5432 none none =
      Except.error ⟨ErrorKind.connect, some ⟨IoErrorKind.other 2, "nxdomain"⟩⟩ ∧
    ErrorKind.connect ≠ ErrorKind.resolution :=
  ⟨rfl, by decide⟩

/-- C7 (amended): when the name lookup itself fails, `connect_socket`
immediately returns `Error::connect` of the lookup's I/O cause (a Connect-kind
error, not a distinct `Resolution` kind) and no connect attempt is made on any
address. -/
theorem c7_resolution_failure (env : Env) (h : String) (port : Nat)
    (t : Option Duration) (ka : Option KeepaliveConfig) (e : IoError)
    (hres : env.lookupHost h port = Except.error e) :
    connect_socket env (Host.tcp h) port t ka = Except.error (Error.connect e) ∧
    connect_socket_attempts env (Host.tcp h) port t ka = [] := by
  constructor
  · simp [connect_socket, hres]
  · simp [connect_socket_attempts, hres]

/-- C7 witness: the amended claim at the concrete failing-lookup environment. -/
theorem c7_witness :
    connect_socket envLookupFail (Host.tcp "bad.invalid") 5432 none none =
      Except.error (Error.connect ⟨IoErrorKind.other 2, "nxdomain"⟩) ∧
    connect_socket_attempts envLookupFail (Host.tcp "bad.invalid") 5432 none none = [] :=
  c7_resolution_failure envLookupFail "bad.invalid" 5432 none none
    ⟨IoErrorKind.other 2, "nxdomain"⟩ rfl
